import Mathlib

/-!
Verification development for the `my_utilities` repository
(`src/my_utilities/convenience/_convenience.py` and
`src/my_utilities/wrappers/_rspace.py`).

The Python code is embedded shallowly: pure helpers become Lean
functions, `raise`/`assert` become `Except`, the pandas/numpy values
the helpers manipulate are modelled as inductive data, and the two
stateful pieces (the `logging` module registry and the R session held
by `RSpace`) become explicit state passing.
-/

namespace MyUtilities

/-! ## Scalar cells shared by the dataframe and R-session models -/

/-- A scalar cell value as it appears in the tables the helpers
manipulate: a number (rationals stand in for Python floats/ints),
a string, or a boolean. -/
inductive Scalar where
  | num (q : ℚ)
  | str (s : String)
  | bool (b : Bool)
deriving DecidableEq, Repr

/-- A Python object usable as a label: `select` uses the string key of a
dict (or the empty string for a lone query), or the integer position
produced by `enumerate` for a list of queries; pandas index labels are
either strings or integers as well. -/
inductive PyKey where
  | s (v : String)
  | n (v : Nat)
deriving DecidableEq, Repr

/-! ## `interval2str` (_convenience.py lines 7-20) -/

/-- An embedded `pd.Interval`: two endpoints and the `closed` tag
(pandas stores the tag as one of the strings `both`, `left`, `right`,
`neither`, but the Python code matches on an arbitrary string and
raises on anything else, so the field is an arbitrary string here). -/
structure Interval where
  left : ℚ
  right : ℚ
  closed : String
deriving DecidableEq, Repr

/-- Embedding of `interval2str(interval, fmt)`.  The `fmt` parameter of
the source is a caller-supplied format string applied to the two
endpoints; it is modelled as the function it denotes on the endpoints.
`raise ValueError` becomes `Except.error`. -/
def interval2str (interval : Interval) (fmt : ℚ → ℚ → String) : Except String String :=
  let range_str := fmt interval.left interval.right
  if interval.closed = "both" then
    Except.ok ("[" ++ range_str ++ "]")
  else if interval.closed = "left" then
    Except.ok ("[" ++ range_str ++ ")")
  else if interval.closed = "right" then
    Except.ok ("(" ++ range_str ++ "]")
  else if interval.closed = "neither" then
    Except.ok ("(" ++ range_str ++ ")")
  else
    Except.error "Unknown bound"

/-! ## `pvalue_to_asterisks` (_convenience.py lines 23-32) -/

/-- Embedding of `pvalue_to_asterisks(p_value)`: a chain of `<=`
comparisons, first match returns. -/
def pvalue_to_asterisks (p_value : ℚ) : String :=
  if p_value ≤ 0.0001 then "****"
  else if p_value ≤ 0.001 then "***"
  else if p_value ≤ 0.01 then "**"
  else if p_value ≤ 0.05 then "*"
  else "ns"

/-- The threshold table as the spec words it: four thresholds in
ascending order, first match wins, `ns` when none matches. -/
def asteriskThresholds : List (ℚ × String) :=
  [(0.0001, "****"), (0.001, "***"), (0.01, "**"), (0.05, "*")]

/-- First-match lookup over a threshold table, the spec-side reading of
`pvalue_to_asterisks`. -/
def firstMatchLookup (p : ℚ) : List (ℚ × String) → String
  | [] => "ns"
  | (t, s) :: rest => if p ≤ t then s else firstMatchLookup p rest

/-! ## `is_true` (_convenience.py lines 83-122) -/

/-- The `condition` argument of `is_true`: either a boolean or a
single-argument predicate over the data (the source tests
`callable(condition)` to tell the two apart). -/
inductive Cond (α : Type) where
  | boolean (b : Bool)
  | pred (f : α → Bool)

/-- Embedding of `is_true(data, condition, message)`: evaluate the
condition on the data when it is callable, assert the result, return
the data unchanged; a failing `assert` becomes `Except.error` carrying
the caller-supplied message. -/
def is_true {α : Type} (data : α) (condition : Cond α)
    (message : String) : Except String α :=
  match condition with
  | Cond.pred f => if f data then Except.ok data else Except.error message
  | Cond.boolean b => if b then Except.ok data else Except.error message

/-! ## `select` (_convenience.py lines 124-161) -/

/-- A pandas DataFrame as `select` manipulates it: a sequence of rows,
each carrying its index label and its data.  The row data stays
abstract (`α`): `select` never inspects it beyond evaluating a query
on it. -/
structure DataFrame (α : Type) where
  rows : List (PyKey × α)

/-- The result of `select`: the input rows with the extra indicator
column.  The indicator column (named by the `indicator` argument,
default `query`) is modelled positionally as the third component of
each row. -/
structure TaggedFrame (α : Type) where
  rows : List (PyKey × α × PyKey)

/-- The `queries` argument of `select`: one query string, a list of
query strings, or a dict mapping labels to query strings.  A pandas
query string is embedded as the row predicate it denotes under
`df.query`. -/
inductive QueriesArg (α : Type) where
  | str (q : α → Bool)
  | list (qs : List (α → Bool))
  | dict (qs : List (PyKey × (α → Bool)))

/-- The two normalization steps at the top of `select`: a lone string
becomes a dict under the empty-string key, a list becomes a dict keyed
by `enumerate` position; a dict passes through. -/
def normalizeQueries {α : Type} : QueriesArg α → List (PyKey × (α → Bool))
  | QueriesArg.str q => [(PyKey.s "", q)]
  | QueriesArg.list qs => qs.enum.map (fun p => (PyKey.n p.1, p.2))
  | QueriesArg.dict qs => qs

/-- `dataframe.query(que_str)`: keep the rows satisfying the query,
in their original order, with their original index labels. -/
def DataFrame.query {α : Type} (df : DataFrame α) (q : α → Bool) : DataFrame α :=
  ⟨df.rows.filter (fun r => q r.2)⟩

/-- `.copy(deep=True)`: an independent duplicate with the same rows. -/
def DataFrame.copyDeep {α : Type} (df : DataFrame α) : DataFrame α :=
  ⟨df.rows⟩

/-- `.assign(**{indicator: que_id})`: a new frame with the indicator
column added, holding `que_id` in every row. -/
def DataFrame.assignTag {α : Type} (df : DataFrame α) (que_id : PyKey) : TaggedFrame α :=
  ⟨df.rows.map (fun r => (r.1, r.2, que_id))⟩

/-- `pd.concat(subsets, axis=0, ignore_index=False, sort=False,
copy=True)`: vertical concatenation keeping each subset's index
labels; pandas raises `ValueError: No objects to concatenate` when
given no subsets. -/
def pdConcat {α : Type} (subsets : List (TaggedFrame α)) : Except String (TaggedFrame α) :=
  if subsets.isEmpty then Except.error "No objects to concatenate"
  else Except.ok ⟨(subsets.map TaggedFrame.rows).flatten⟩

/-- Embedding of `select(dataframe, queries, indicator)`: normalize
`queries` to a dict, evaluate each query against the input table, tag
each subset with its label, and concatenate. -/
def select {α : Type} (dataframe : DataFrame α) (queries : QueriesArg α) :
    Except String (TaggedFrame α) :=
  let qs := normalizeQueries queries
  let subsets := qs.map (fun p => ((dataframe.query p.2).copyDeep).assignTag p.1)
  pdConcat subsets

/-- The spec-side characterization of a successful `select`: the
concatenation, over the normalized queries in order, of the matching
rows of the unmodified input (in input order) tagged with that query's
label. -/
def selectSpec {α : Type} (df : DataFrame α) (qs : List (PyKey × (α → Bool))) :
    List (PyKey × α × PyKey) :=
  qs.flatMap (fun p => (df.rows.filter (fun r => p.2 r.2)).map (fun r => (r.1, r.2, p.1)))

/-! State-passing version of `select`, used to express that the
pipeline leaves the caller's table untouched.  The caller's dataframe
is the explicit store threaded through every primitive; each primitive
returns the (possibly updated) store next to its own result.  Per
pandas semantics none of `query`, `copy`, `assign`, `concat` writes to
its input: `query` and `copy` build new frames, `assign` copies before
adding the column, and `concat` with `copy=True` copies the subsets. -/

/-- `dataframe.query(...)` as a store-passing step: reads the store,
returns a fresh filtered frame, store unchanged. -/
def queryEff {α : Type} (store : DataFrame α) (q : α → Bool) :
    DataFrame α × DataFrame α :=
  (store, store.query q)

/-- `.copy(deep=True)` as a store-passing step: duplicates the subset,
store unchanged. -/
def copyEff {α : Type} (store : DataFrame α) (sub : DataFrame α) :
    DataFrame α × DataFrame α :=
  (store, sub.copyDeep)

/-- `.assign(...)` as a store-passing step: builds a new tagged frame
from the (copied) subset, store unchanged. -/
def assignEff {α : Type} (store : DataFrame α) (sub : DataFrame α) (que_id : PyKey) :
    DataFrame α × TaggedFrame α :=
  (store, sub.assignTag que_id)

/-- `pd.concat(..., copy=True)` as a store-passing step: copies the
subsets into the merged frame, store unchanged. -/
def concatEff {α : Type} (store : DataFrame α) (subsets : List (TaggedFrame α)) :
    DataFrame α × Except String (TaggedFrame α) :=
  (store, pdConcat subsets)

/-- One iteration of the `for` loop in `select`, store-passing: query
the store, copy the subset, assign the tag, append the tagged subset
to the accumulated list. -/
def selectStep {α : Type} (acc : DataFrame α × List (TaggedFrame α))
    (p : PyKey × (α → Bool)) : DataFrame α × List (TaggedFrame α) :=
  let s1 := queryEff acc.1 p.2
  let s2 := copyEff s1.1 s1.2
  let s3 := assignEff s2.1 s2.2 p.1
  (s3.1, acc.2 ++ [s3.2])

/-- The body of `select` with the caller's dataframe as explicit
state: the `for` loop over the normalized queries appending each
tagged subset, then the final concatenation. -/
def selectEff {α : Type} (dataframe : DataFrame α) (queries : QueriesArg α) :
    DataFrame α × Except String (TaggedFrame α) :=
  let qs := normalizeQueries queries
  let final := qs.foldl selectStep (dataframe, [])
  concatEff final.1 final.2

/-! ## `get_logger` (_convenience.py lines 55-80) -/

/-- A handler as `get_logger` builds it: a stream handler carrying a
formatter with a format string and a date format string. -/
structure Handler where
  fmt : String
  datefmt : String
deriving DecidableEq, Repr

/-- The state of one logger in the `logging` module registry: its
handler list, its level, and the `last_print` attribute `get_logger`
sets on it. -/
structure Logger where
  handlers : List Handler
  level : Nat
  last_print : Nat
deriving DecidableEq, Repr

/-- The `logging` module's process-wide registry, keyed by logger name
(`none` is the root logger).  `logging.getLogger` creates a fresh
logger (no handlers) on first use, so the registry is total with fresh
loggers as the default. -/
def LogRegistry : Type := Option String → Logger

/-- `logging.INFO`. -/
def INFO : Nat := 20

/-- The handler `get_logger` attaches: a `StreamHandler` with the fixed
timestamped format. -/
def streamHandler : Handler :=
  ⟨"%(asctime)s %(name)s [%(levelname)-s]: %(message)s", "%Y-%m-%d %H:%M:%S"⟩

/-- Embedding of `get_logger(name, level)`: default the level to
`INFO`, fetch the named logger from the registry, attach the stream
handler when the logger has none, set the level, set `last_print` to 0,
and return the updated registry together with the logger. -/
def get_logger (st : LogRegistry) (name : Option String) (level : Option Nat) :
    LogRegistry × Logger :=
  let lv := level.getD INFO
  let logger := st name
  let logger :=
    if logger.handlers.length = 0 then
      { logger with handlers := logger.handlers ++ [streamHandler] }
    else logger
  let logger := { logger with level := lv, last_print := 0 }
  (fun n => if n = name then logger else st n, logger)

/-! ## `generate_dataframe` (_convenience.py lines 35-52) -/

/-- A cell of the synthetic dataframe: a number, a string, or a date
(days since 2023-01-01 for the `G` column). -/
inductive Cell where
  | num (q : ℚ)
  | str (s : String)
  | date (d : Nat)
deriving DecidableEq, Repr

/-- Deterministic model of `np.random.default_rng(seed)`: the
generator state advances by a fixed 64-bit linear congruential step.
The claims about `generate_dataframe` depend only on the stream being
a deterministic function of the seed and on each draw of size `n`
yielding `n` values, not on the numeric values drawn. -/
def rngNext (state : Nat) : Nat :=
  (state * 6364136223846793005 + 1442695040888963407) % (2 ^ 64)

/-- `n` raw draws from the generator, returning the drawn words and
the advanced state. -/
def drawWords (state : Nat) (n : Nat) : List Nat × Nat :=
  ((List.range n).map (fun i => rngNext (state + i)), state + n)

/-- `rng.normal(loc, scale, size=n)` and the other continuous draws:
`n` numbers from the stream, scaled into rationals. -/
def drawNums (state : Nat) (n : Nat) : List ℚ × Nat :=
  let w := drawWords state n
  (w.1.map (fun v => ((v % 1000 : Nat) : ℚ) / 1000), w.2)

/-- `rng.integers(low=0, high=100, size=n)`. -/
def drawInts (state : Nat) (n : Nat) : List ℚ × Nat :=
  let w := drawWords state n
  (w.1.map (fun v => ((v % 100 : Nat) : ℚ)), w.2)

/-- `rng.choice(pool, size=n)`: `n` picks from a finite pool. -/
def drawChoice {α : Type} (dflt : α) (pool : List α) (state : Nat) (n : Nat) :
    List α × Nat :=
  let w := drawWords state n
  (w.1.map (fun v => pool.getD (v % pool.length) dflt), w.2)

/-- The ingredient pool of column `E`. -/
def ingredientPool : List String :=
  ["flour", "egg", "oil", "milk", "water", "salt", "suger"]

/-- The string pool of column `F`: `str_0` .. `str_9`. -/
def strPool : List String :=
  (List.range 10).map (fun i => "str_" ++ toString i)

/-- `pd.date_range(2023-01-01, 2024-01-01)`: 366 consecutive days,
modelled as day offsets. -/
def dateRangePool : List Nat := List.range 366

/-- Embedding of `generate_dataframe(n, seed)`: seed the generator,
draw the seven columns `A`..`G` in order, threading the generator
state through the draws, and assemble the column-name/column pairs. -/
def generate_dataframe (n : Nat) (seed : Nat) : List (String × List Cell) :=
  let s0 := seed
  let a := drawNums s0 n
  let b := drawNums a.2 n
  let c := drawInts b.2 n
  let d := drawNums c.2 n
  let e := drawChoice "flour" ingredientPool d.2 n
  let f := drawChoice "str_0" strPool e.2 n
  let g := drawChoice 0 dateRangePool f.2 n
  [ ("A", a.1.map Cell.num)
  , ("B", b.1.map Cell.num)
  , ("C", c.1.map Cell.num)
  , ("D", d.1.map Cell.num)
  , ("E", e.1.map Cell.str)
  , ("F", f.1.map Cell.str)
  , ("G", g.1.map Cell.date) ]

/-! ## `RSpace` (_rspace.py)

The R session is modelled as an association list from variable names to
R-side values.  An R-side value (`RVal`) records the attributes the
read path queries through interpreter calls (`is.atomic`, `length`,
`dim`, `names`, `rownames`, `colnames`, with the R `NULL` sentinel
modelled as `Option.none`) together with the Python value produced for
it by the rpy2 converter chain (`rpy2py` under
`default_converter + pandas2ri.converter`). -/

/-- The Python value the converter chain produces for an R variable:
a pandas DataFrame (for R data.frames), an rpy2 `StrVector` left
unconverted (for character vectors), a numpy ndarray (for dimensioned
numeric arrays), a named atomic vector exposing name/value items, or a
plain unnamed sequence. -/
inductive PyVal where
  | pyFrame (index : List PyKey) (cols : List PyKey) (data : List (List Scalar))
  | pyStrVec (xs : List String)
  | pyNdarray (shape : List Nat) (data : List Scalar)
  | pyNamedVec (items : List (String × Scalar))
  | pyVec (xs : List Scalar)
deriving DecidableEq, Repr

/-- An R-side variable: the session attributes the read path inspects,
plus the converted Python value. -/
structure RVal where
  isAtomic : Bool
  rlength : Nat
  rdim : Option (List Nat)
  rnames : Option (List String)
  rrownames : Option (List String)
  rcolnames : Option (List String)
  converted : PyVal
deriving DecidableEq, Repr

/-- A host-side (Python) value as `RSpace` exchanges it: an unwrapped
scalar, a labeled table, a labeled one-dimensional sequence, a flat
string array, a plain numpy array of some shape, or a Python dict
(which the write path converts to a tagged list). -/
inductive HostVal where
  | scalar (x : Scalar)
  | frame (index : List PyKey) (cols : List PyKey) (data : List (List Scalar))
  | series (index : List PyKey) (data : List Scalar)
  | strArray (xs : List String)
  | ndarr (shape : List Nat) (data : List Scalar)
  | pydict (items : List (String × Scalar))
deriving DecidableEq, Repr

/-- `value_py[0]`: the first element of the converted value, `none`
when indexing with 0 would raise (as it does on a DataFrame without a
column named 0). -/
def pyGetFirst : PyVal → Option Scalar
  | PyVal.pyFrame _ _ _ => none
  | PyVal.pyStrVec xs => xs.head?.map Scalar.str
  | PyVal.pyNdarray _ data => data.head?
  | PyVal.pyNamedVec items => items.head?.map Prod.snd
  | PyVal.pyVec xs => xs.head?

/-- `pd.Series(data=dict(value_py))`: a named vector yields the series
labeled by its element names; a plain sequence yields a positionally
indexed series.  `none` models a `dict()` call that raises
(DataFrame/ndarray shapes never reach this branch with well-formed
session values). -/
def seriesOfDict : PyVal → Option (List PyKey × List Scalar)
  | PyVal.pyNamedVec items =>
      some (items.map (fun it => PyKey.s it.1), items.map Prod.snd)
  | PyVal.pyVec xs =>
      some ((List.range xs.length).map PyKey.n, xs)
  | _ => none

/-- Row-major slicing of a flat ndarray buffer into `r` rows of `c`
cells each. -/
def chunkRows (data : List Scalar) (r c : Nat) : List (List Scalar) :=
  (List.range r).map (fun i => (data.drop (i * c)).take c)

/-- `pd.DataFrame(data=value_py)`: a 2-d array becomes a table with
positional row and column labels, a 1-d array a single positional
column; a DataFrame passes through; `none` models shapes on which the
constructor would raise. -/
def frameOfPy : PyVal → Option (List PyKey × List PyKey × List (List Scalar))
  | PyVal.pyFrame i c d => some (i, c, d)
  | PyVal.pyNdarray [r, c] data =>
      some ((List.range r).map PyKey.n, (List.range c).map PyKey.n, chunkRows data r c)
  | PyVal.pyNdarray [r] data =>
      some ((List.range r).map PyKey.n, [PyKey.n 0], data.map (fun x => [x]))
  | _ => none

/-- Embedding of the body of `RSpace.__getitem__` on one R-side value,
following the Python early returns in order: the scalar test, the
DataFrame test, the `StrVector` test, the `ndim > 2` test, and the
final `dim`-driven Series/DataFrame reconstruction with its `NULL`
checks before every label assignment.  `none` models a raised
exception. -/
def getitemVal (v : RVal) : Option HostVal :=
  if v.isAtomic && v.rlength == 1 then
    (pyGetFirst v.converted).map HostVal.scalar
  else
    match v.converted with
    | PyVal.pyFrame i c d => some (HostVal.frame i c d)
    | PyVal.pyStrVec xs => some (HostVal.strArray xs)
    | PyVal.pyNdarray shape data =>
        if shape.length > 2 then some (HostVal.ndarr shape data)
        else
          match v.rdim with
          | none =>
              (seriesOfDict (PyVal.pyNdarray shape data)).map (fun p =>
                match v.rnames with
                | some ns => HostVal.series (ns.map PyKey.s) p.2
                | none => HostVal.series p.1 p.2)
          | some _ =>
              (frameOfPy (PyVal.pyNdarray shape data)).map (fun t =>
                let idx := match v.rrownames with
                  | some rn => rn.map PyKey.s
                  | none => t.1
                let cls := match v.rcolnames with
                  | some cn => cn.map PyKey.s
                  | none => t.2.1
                HostVal.frame idx cls t.2.2)
    | conv =>
        match v.rdim with
        | none =>
            (seriesOfDict conv).map (fun p =>
              match v.rnames with
              | some ns => HostVal.series (ns.map PyKey.s) p.2
              | none => HostVal.series p.1 p.2)
        | some _ =>
            (frameOfPy conv).map (fun t =>
              let idx := match v.rrownames with
                | some rn => rn.map PyKey.s
                | none => t.1
              let cls := match v.rcolnames with
                | some cn => cn.map PyKey.s
                | none => t.2.1
              HostVal.frame idx cls t.2.2)

/-- Does the converted value test as a pandas DataFrame? -/
def PyVal.isFrame : PyVal → Bool
  | PyVal.pyFrame _ _ _ => true
  | _ => false

/-- Does the converted value test as an rpy2 `StrVector`? -/
def PyVal.isStrVec : PyVal → Bool
  | PyVal.pyStrVec _ => true
  | _ => false

/-- Does the converted value test as a numpy ndarray? -/
def PyVal.isNdarray : PyVal → Bool
  | PyVal.pyNdarray _ _ => true
  | _ => false

/-- `value_py.ndim` of a numpy ndarray (0 elsewhere; only consulted
after the ndarray test). -/
def PyVal.ndim : PyVal → Nat
  | PyVal.pyNdarray shape _ => shape.length
  | _ => 0

/-- The converted value returned unchanged as a table. -/
def PyVal.asFrame : PyVal → Option HostVal
  | PyVal.pyFrame i c d => some (HostVal.frame i c d)
  | _ => none

/-- `np.array(value_py)` on a character vector: the flat string
array. -/
def PyVal.asStrArray : PyVal → Option HostVal
  | PyVal.pyStrVec xs => some (HostVal.strArray xs)
  | _ => none

/-- The converted ndarray returned unchanged. -/
def PyVal.asNdarr : PyVal → Option HostVal
  | PyVal.pyNdarray shape data => some (HostVal.ndarr shape data)
  | _ => none

/-- Spec step 5, no-dimensionality side: build a labeled
one-dimensional sequence from the converted value, attaching element
names only when the `names` attribute is not the null sentinel. -/
def buildSeries (v : RVal) : Option HostVal :=
  (seriesOfDict v.converted).map (fun p =>
    match v.rnames with
    | some ns => HostVal.series (ns.map PyKey.s) p.2
    | none => HostVal.series p.1 p.2)

/-- Spec step 5, dimensioned side: build a two-dimensional table from
the converted value, attaching row labels and then column labels, each
only when the corresponding attribute is not the null sentinel. -/
def buildFrame (v : RVal) : Option HostVal :=
  (frameOfPy v.converted).map (fun t =>
    let idx := match v.rrownames with
      | some rn => rn.map PyKey.s
      | none => t.1
    let cls := match v.rcolnames with
      | some cn => cn.map PyKey.s
      | none => t.2.1
    HostVal.frame idx cls t.2.2)

/-- The read policy exactly as the specification words it: five
ordered cases — (1) atomic of length one unwraps to the scalar, (2) a
DataFrame passes through, (3) a character vector becomes a flat array,
(4) a numeric value of more than two dimensions passes through, (5)
otherwise a labeled sequence or table is rebuilt according to the
dimensionality attribute, labels attached only when present. -/
def getitemPolicy (v : RVal) : Option HostVal :=
  if v.isAtomic = true ∧ v.rlength = 1 then
    (pyGetFirst v.converted).map HostVal.scalar
  else if v.converted.isFrame then v.converted.asFrame
  else if v.converted.isStrVec then v.converted.asStrArray
  else if v.converted.isNdarray ∧ 2 < v.converted.ndim then v.converted.asNdarr
  else if v.rdim = none then buildSeries v
  else buildFrame v

/-! ### The write path (`RSpace.__setitem__`, lines 35-41) -/

/-- A pandas/Python label rendered as an R name (R names are character;
integer labels are rendered as their decimal strings). -/
def keyToRName : PyKey → String
  | PyKey.s s => s
  | PyKey.n n => toString n

/-- Is the cell a Python string? -/
def scalarIsStr : Scalar → Bool
  | Scalar.str _ => true
  | _ => false

/-- A cell coerced to an R character element (R coerces a vector with
any character element entirely to character). -/
def scalarToRString : Scalar → String
  | Scalar.str s => s
  | Scalar.num q => toString q
  | Scalar.bool b => if b then "TRUE" else "FALSE"

/-- Embedding of `py2rpy` (the converter chain applied by
`__setitem__`, after the dict-to-`TaggedList` step) together with the
R-side attributes the assigned variable then has:

* a scalar becomes an atomic vector of length one;
* a DataFrame becomes an R data.frame (not atomic, `length` = number
  of columns, `dim` = (rows, cols), converted back losslessly by the
  pandas2ri round trip);
* a Series becomes a named atomic vector, the names taken from its
  index (a character vector when any element is a string, since R
  coerces mixed atomic vectors to character);
* a string array becomes a character vector;
* an ndarray becomes a dimensioned atomic array;
* a dict, converted to a `TaggedList`, becomes an R list tagged by the
  keys. -/
def py2rpy : HostVal → RVal
  | HostVal.scalar (Scalar.str s) =>
      ⟨true, 1, none, none, none, none, PyVal.pyStrVec [s]⟩
  | HostVal.scalar x =>
      ⟨true, 1, none, none, none, none, PyVal.pyVec [x]⟩
  | HostVal.frame idx cols data =>
      ⟨false, cols.length, some [idx.length, cols.length],
        some (cols.map keyToRName), some (idx.map keyToRName),
        some (cols.map keyToRName), PyVal.pyFrame idx cols data⟩
  | HostVal.series idx data =>
      if data.any scalarIsStr then
        ⟨true, data.length, none, some (idx.map keyToRName), none, none,
          PyVal.pyStrVec (data.map scalarToRString)⟩
      else
        ⟨true, data.length, none, some (idx.map keyToRName), none, none,
          PyVal.pyNamedVec ((idx.map keyToRName).zip data)⟩
  | HostVal.strArray xs =>
      ⟨true, xs.length, none, none, none, none, PyVal.pyStrVec xs⟩
  | HostVal.ndarr shape data =>
      ⟨true, shape.prod, some shape, none, none, none,
        PyVal.pyNdarray shape data⟩
  | HostVal.pydict items =>
      ⟨false, items.length, none, some (items.map Prod.fst), none, none,
        PyVal.pyNamedVec items⟩

/-! ### The session -/

/-- The R global environment: an association list from variable names
to R-side values, newest binding first. -/
def RSession : Type := List (String × RVal)

/-- `RSpace.__setitem__`: convert the host value and assign it under
`name` in the global environment. -/
def setitem (env : RSession) (name : String) (value : HostVal) : RSession :=
  (name, py2rpy value) :: env

/-- `RSpace.__getitem__`: look the name up in the global environment
and run the read path on the stored R value (`none` models the
exception raised on an unbound name or a failing conversion). -/
def getitem (env : RSession) (name : String) : Option HostVal :=
  match List.lookup name env with
  | some v => getitemVal v
  | none => none

/-- Is this label a string label? -/
def PyKey.isStr : PyKey → Bool
  | PyKey.s _ => true
  | PyKey.n _ => false

/-! ## Theorems -/

/-- C5: `is_true(x, True)` returns `x` unchanged and `is_true(x, False)`
raises with the caller-supplied message; a callable condition is
evaluated on `x` and `is_true` returns `x` unchanged exactly when the
result is truthy, raising otherwise, so `is_true` raises if and only
if the evaluated condition is falsy. -/
theorem is_true_spec (α : Type) (x : α) (f : α → Bool) (m : String) :
    is_true x (Cond.boolean true) m = Except.ok x
    ∧ is_true x (Cond.boolean false) m = Except.error m
    ∧ (is_true x (Cond.pred f) m = Except.ok x ↔ f x = true)
    ∧ (is_true x (Cond.pred f) m = Except.error m ↔ f x = false)
    ∧ (∀ b : Bool, is_true x (Cond.boolean b) m = Except.error m ↔ b = false) := by
  refine ⟨rfl, rfl, ?_, ?_, ?_⟩
  · cases h : f x <;> simp [is_true, h]
  · cases h : f x <;> simp [is_true, h]
  · intro b; cases b <;> simp [is_true]

/-- C6: `pvalue_to_asterisks` is the first-match lookup over the four
thresholds `0.0001, 0.001, 0.01, 0.05` taken in ascending (strictest
first) order with default `ns`, and the six sample inputs map to the
outputs the spec lists. -/
theorem pvalue_to_asterisks_spec :
    (∀ p : ℚ, pvalue_to_asterisks p = firstMatchLookup p asteriskThresholds)
    ∧ asteriskThresholds.map Prod.fst = [0.0001, 0.001, 0.01, 0.05]
    ∧ (asteriskThresholds.map Prod.fst).Chain' (fun a b => a < b)
    ∧ pvalue_to_asterisks 0 = "****"
    ∧ pvalue_to_asterisks 0.00005 = "****"
    ∧ pvalue_to_asterisks 0.0009 = "***"
    ∧ pvalue_to_asterisks 0.005 = "**"
    ∧ pvalue_to_asterisks 0.03 = "*"
    ∧ pvalue_to_asterisks 0.5 = "ns" := by
  refine ⟨fun p => rfl, rfl, ?_, ?_, ?_, ?_, ?_, ?_, ?_⟩
  · simp [asteriskThresholds, List.chain'_cons]
    norm_num
  all_goals norm_num [pvalue_to_asterisks]

/-- C7: for each of the four closedness tags `both`, `left`, `right`,
`neither`, `interval2str` wraps the formatted range in the matching
bracket pair, and any other tag raises the `Unknown bound` error. -/
theorem interval2str_spec (l r : ℚ) (fmt : ℚ → ℚ → String) (tag : String) :
    interval2str ⟨l, r, "both"⟩ fmt = Except.ok ("[" ++ fmt l r ++ "]")
    ∧ interval2str ⟨l, r, "left"⟩ fmt = Except.ok ("[" ++ fmt l r ++ ")")
    ∧ interval2str ⟨l, r, "right"⟩ fmt = Except.ok ("(" ++ fmt l r ++ "]")
    ∧ interval2str ⟨l, r, "neither"⟩ fmt = Except.ok ("(" ++ fmt l r ++ ")")
    ∧ (tag ≠ "both" → tag ≠ "left" → tag ≠ "right" → tag ≠ "neither" →
        interval2str ⟨l, r, tag⟩ fmt = Except.error "Unknown bound") := by
  refine ⟨rfl, rfl, rfl, rfl, ?_⟩
  intro h1 h2 h3 h4
  simp [interval2str, h1, h2, h3, h4]

/-- Witness for C7: a concrete unknown tag raises. -/
theorem interval2str_spec_witness :
    interval2str ⟨0, 1, "open"⟩ (fun _ _ => "0.0, 1.0") = Except.error "Unknown bound" :=
  (interval2str_spec 0 1 (fun _ _ => "0.0, 1.0") "open").2.2.2.2
    (by decide) (by decide) (by decide) (by decide)

/-- C10: `select` with an empty list or an empty dict of queries hands
`pd.concat` zero subsets, which raises rather than returning an empty
table. -/
theorem select_empty_raises (α : Type) (df : DataFrame α) :
    select df (QueriesArg.list []) = Except.error "No objects to concatenate"
    ∧ select df (QueriesArg.dict []) = Except.error "No objects to concatenate" :=
  ⟨rfl, rfl⟩

/-- C8: `generate_dataframe(n, seed)` is a pure function of its two
arguments, so two calls with identical arguments agree; the table has
exactly the seven columns `A`..`G` in order, and every column holds
exactly `n` cells. -/
theorem generate_dataframe_spec (n seed : Nat) :
    generate_dataframe n seed = generate_dataframe n seed
    ∧ (generate_dataframe n seed).map Prod.fst = ["A", "B", "C", "D", "E", "F", "G"]
    ∧ (generate_dataframe n seed).map (fun c => c.2.length) = List.replicate 7 n := by
  have hw : ∀ s m : Nat, (drawWords s m).1.length = m := by
    intro s m; simp [drawWords]
  have hn : ∀ s m : Nat, (drawNums s m).1.length = m := by
    intro s m; simp [drawNums, hw]
  have hi : ∀ s m : Nat, (drawInts s m).1.length = m := by
    intro s m; simp [drawInts, hw]
  have hc : ∀ (β : Type) (d : β) (pool : List β) (s m : Nat),
      (drawChoice d pool s m).1.length = m := by
    intro β d pool s m; simp [drawChoice, hw]
  refine ⟨rfl, rfl, ?_⟩
  simp [generate_dataframe, hn, hi, hc, List.replicate]

/-- The `for` loop of `select`, run with the caller's table as explicit
store, leaves the store untouched and accumulates exactly the tagged
subsets of the pure version. -/
theorem selectStep_foldl {α : Type} (qs : List (PyKey × (α → Bool)))
    (df : DataFrame α) (acc : List (TaggedFrame α)) :
    qs.foldl selectStep (df, acc)
      = (df, acc ++ qs.map (fun p => ((df.query p.2).copyDeep).assignTag p.1)) := by
  induction qs generalizing acc with
  | nil => simp
  | cons p rest ih =>
      simp [List.foldl_cons, selectStep, queryEff, copyEff, assignEff, ih]

/-- C9: the store-passing run of `select` returns the caller's table
unchanged next to exactly the result of the pure `select`: no
operation in the pipeline writes to the caller's table. -/
theorem select_preserves_input (α : Type) (df : DataFrame α) (queries : QueriesArg α) :
    (selectEff df queries).1 = df ∧ (selectEff df queries).2 = select df queries := by
  simp only [selectEff, select, selectStep_foldl, concatEff, List.nil_append]
  exact ⟨trivial, trivial⟩

/-- The concatenated tagged subsets of `select` are exactly the
spec-side flat map over the normalized queries. -/
theorem select_subsets_flatten {α : Type} (df : DataFrame α)
    (qs : List (PyKey × (α → Bool))) :
    ((qs.map (fun p => ((df.query p.2).copyDeep).assignTag p.1)).map
        TaggedFrame.rows).flatten = selectSpec df qs := by
  induction qs with
  | nil => rfl
  | cons p rest ih =>
      simp only [List.map_cons, List.flatten_cons, selectSpec, List.flatMap_cons] at ih ⊢
      rw [ih]
      rfl

/-- C1: `select` normalizes its queries argument to a label-to-query
mapping (empty label for a lone string, positional index for a list),
and a successful result is exactly the concatenation, over the
normalized queries in order, of the rows of the unmodified input that
satisfy each query, in input order, each tagged with that query's
label in the indicator column; hence a row appears once per matching
query, with its original index label. -/
theorem select_spec_ok (α : Type) :
    (∀ q : α → Bool, normalizeQueries (QueriesArg.str q) = [(PyKey.s "", q)])
    ∧ (∀ qs : List (α → Bool),
        normalizeQueries (QueriesArg.list qs) = qs.enum.map (fun p => (PyKey.n p.1, p.2)))
    ∧ (∀ (df : DataFrame α) (queries : QueriesArg α) (r : TaggedFrame α),
        select df queries = Except.ok r → r.rows = selectSpec df (normalizeQueries queries))
    ∧ (∀ (df : DataFrame α) (queries : QueriesArg α) (r : TaggedFrame α)
        (i : PyKey) (a : α) (l : PyKey),
        select df queries = Except.ok r →
        ((i, a, l) ∈ r.rows ↔
          ∃ q : α → Bool, (l, q) ∈ normalizeQueries queries ∧ (i, a) ∈ df.rows
            ∧ q a = true)) := by
  have hok : ∀ (df : DataFrame α) (queries : QueriesArg α) (r : TaggedFrame α),
      select df queries = Except.ok r → r.rows = selectSpec df (normalizeQueries queries) := by
    intro df queries r h
    by_cases he : ((normalizeQueries queries).map
        (fun p => ((df.query p.2).copyDeep).assignTag p.1)).isEmpty
    · simp [select, pdConcat, he] at h
    · simp only [select, pdConcat, he, if_neg, Bool.false_eq_true,
        not_false_eq_true, if_false, Except.ok.injEq] at h
      rw [← h]
      exact select_subsets_flatten df (normalizeQueries queries)
  refine ⟨fun q => rfl, fun qs => rfl, hok, ?_⟩
  intro df queries r i a l h
  rw [hok df queries r h]
  simp only [selectSpec, List.mem_flatMap, List.mem_map, List.mem_filter]
  constructor
  · rintro ⟨⟨pl, pq⟩, hp, ⟨ri, ra⟩, ⟨hrr, hq⟩, heq⟩
    obtain ⟨h1, h2, h3⟩ : ri = i ∧ ra = a ∧ pl = l := by simpa using heq
    subst h1; subst h2; subst h3
    exact ⟨pq, hp, hrr, hq⟩
  · rintro ⟨q, hlq, hia, hqa⟩
    exact ⟨(l, q), hlq, (i, a), ⟨hia, hqa⟩, rfl⟩

/-- Witness for C1: on the table with column values 0,1,2,3 and the
two queries labelled `a` (value above 1) and `b` (value at most 1),
the successful `select` result is characterized by the spec-side flat
map. -/
theorem select_spec_ok_witness :
    (TaggedFrame.mk [(PyKey.n 2, 2, PyKey.s "a"), (PyKey.n 3, 3, PyKey.s "a"),
        (PyKey.n 0, 0, PyKey.s "b"), (PyKey.n 1, 1, PyKey.s "b")] :
      TaggedFrame Nat).rows
      = selectSpec ⟨[(PyKey.n 0, 0), (PyKey.n 1, 1), (PyKey.n 2, 2), (PyKey.n 3, 3)]⟩
          (normalizeQueries (QueriesArg.dict
            [(PyKey.s "a", fun v => decide (1 < v)),
             (PyKey.s "b", fun v => decide (v ≤ 1))])) :=
  (select_spec_ok Nat).2.2.1
    ⟨[(PyKey.n 0, 0), (PyKey.n 1, 1), (PyKey.n 2, 2), (PyKey.n 3, 3)]⟩
    (QueriesArg.dict
      [(PyKey.s "a", fun v => decide (1 < v)),
       (PyKey.s "b", fun v => decide (v ≤ 1))])
    (TaggedFrame.mk [(PyKey.n 2, 2, PyKey.s "a"), (PyKey.n 3, 3, PyKey.s "a"),
        (PyKey.n 0, 0, PyKey.s "b"), (PyKey.n 1, 1, PyKey.s "b")])
    rfl

/-- C4: on a logger that has no handlers yet, `get_logger` attaches
exactly one stream handler with the fixed timestamped format, at the
caller-chosen level (`INFO` when none is given); the registry stores
exactly the returned logger under the name; and a subsequent call with
the same name only adjusts the logger's level, changing nothing else
about it — in particular the handler list stays the single attached
handler, so attachment happens once per name. -/
theorem get_logger_spec (st : LogRegistry) (name : Option String)
    (lv1 lv2 : Option Nat) :
    ((st name).handlers = [] →
      (get_logger st name lv1).2 = ⟨[streamHandler], lv1.getD INFO, 0⟩)
    ∧ (get_logger st name lv1).1 name = (get_logger st name lv1).2
    ∧ (get_logger ((get_logger st name lv1).1) name lv2).2
        = { ((get_logger st name lv1).1) name with level := lv2.getD INFO }
    ∧ ((get_logger ((get_logger st name lv1).1) name lv2).2).handlers
        = ((get_logger st name lv1).2).handlers := by
  refine ⟨?_, ?_, ?_, ?_⟩
  · intro h
    simp [get_logger, h]
  · simp [get_logger]
  · cases h : (st name).handlers <;> simp [get_logger, h]
  · cases h : (st name).handlers <;> simp [get_logger, h]

/-- Witness for C4: starting from a registry of fresh loggers, the
first call for the name `worker` at level 10 returns the logger with
the single stream handler and level 10. -/
theorem get_logger_spec_witness :
    (get_logger (fun _ => ⟨[], 20, 0⟩) (some "worker") (some 10)).2
      = ⟨[streamHandler], 10, 0⟩ :=
  (get_logger_spec (fun _ => ⟨[], 20, 0⟩) (some "worker") (some 10) none).1 rfl

/-- The translated body of `__getitem__` agrees with the spec-side
five-step policy on every R-side value. -/
theorem getitemVal_eq_policy (v : RVal) : getitemVal v = getitemPolicy v := by
  obtain ⟨a, len, dim, ns, rns, cns, conv⟩ := v
  by_cases h : a = true ∧ len = 1
  · obtain ⟨ha, hl⟩ := h
    subst ha; subst hl
    cases conv <;> simp [getitemVal, getitemPolicy]
  · have hb : (a && (len == 1)) = false := by
      cases a with
      | false => rfl
      | true =>
        have hlen : len ≠ 1 := fun hlen => h ⟨rfl, hlen⟩
        simp [hlen]
    cases conv <;>
      cases dim <;>
        simp [getitemVal, getitemPolicy, hb, h, PyVal.isFrame, PyVal.isStrVec,
          PyVal.isNdarray, PyVal.ndim, PyVal.asFrame, PyVal.asStrArray,
          PyVal.asNdarr, buildSeries, buildFrame]

/-- C2: for every name bound in the session, `__getitem__` returns
exactly what the ordered five-step policy prescribes on the stored
R-side value: (1) atomic of length one unwraps to the scalar, (2) a
converted DataFrame passes through, (3) a character vector becomes a
flat array, (4) an ndarray of more than two dimensions passes through,
(5) otherwise a labeled sequence (no `dim` attribute) or a labeled
table (with `dim`) is rebuilt, each label attached only after its null
check. -/
theorem getitem_follows_policy (env : RSession) (name : String) (v : RVal)
    (h : List.lookup name env = some v) :
    getitem env name = getitemPolicy v := by
  unfold getitem
  rw [h]
  exact getitemVal_eq_policy v

/-- Witness for C2: a session holding one scalar variable, read back
through the policy. -/
theorem getitem_follows_policy_witness :
    getitem [("x", py2rpy (HostVal.scalar (Scalar.num 5)))] "x"
      = getitemPolicy (py2rpy (HostVal.scalar (Scalar.num 5))) :=
  getitem_follows_policy [("x", py2rpy (HostVal.scalar (Scalar.num 5)))] "x"
    (py2rpy (HostVal.scalar (Scalar.num 5))) rfl

/-- C3 (amended): writing a named variable and reading it back
preserves the value and its labels for the shapes the read path
recognizes, except that any written value whose total length is one is
read back as the unwrapped scalar.  Concretely: a scalar round trips
to itself unwrapped; a labeled table round trips with row and column
labels; a named one-dimensional sequence with string labels,
non-string data and at least two elements round trips with its labels;
a string vector with length other than one round trips as a flat
array; and an array of more than two dimensions whose size is not one
round trips unchanged. -/
theorem rspace_roundtrip (env : RSession) (name : String) :
    (∀ x : Scalar,
      getitem (setitem env name (HostVal.scalar x)) name
        = some (HostVal.scalar x))
    ∧ (∀ (i c : List PyKey) (d : List (List Scalar)),
      getitem (setitem env name (HostVal.frame i c d)) name
        = some (HostVal.frame i c d))
    ∧ (∀ (idx : List PyKey) (data : List Scalar),
      2 ≤ data.length → idx.length = data.length →
      data.any scalarIsStr = false → idx.all PyKey.isStr = true →
      getitem (setitem env name (HostVal.series idx data)) name
        = some (HostVal.series idx data))
    ∧ (∀ xs : List String, xs.length ≠ 1 →
      getitem (setitem env name (HostVal.strArray xs)) name
        = some (HostVal.strArray xs))
    ∧ (∀ (shape : List Nat) (data : List Scalar),
      2 < shape.length → shape.prod ≠ 1 →
      getitem (setitem env name (HostVal.ndarr shape data)) name
        = some (HostVal.ndarr shape data)) := by
  have hget : ∀ rv : RVal, getitem ((name, rv) :: env) name = getitemVal rv := by
    intro rv
    simp [getitem, List.lookup]
  refine ⟨?_, ?_, ?_, ?_, ?_⟩
  · intro x
    simp only [setitem]
    rw [hget]
    cases x <;> simp [py2rpy, getitemVal, pyGetFirst]
  · intro i c d
    simp only [setitem]
    rw [hget]
    simp [py2rpy, getitemVal]
  · intro idx data h2 hlen hstr hkeys
    simp only [setitem]
    rw [hget]
    have hne : (data.length == 1) = false := by
      have hd : data.length ≠ 1 := by omega
      simp [hd]
    simp only [py2rpy, hstr, Bool.false_eq_true, if_false]
    simp only [getitemVal, hne, Bool.and_false, Bool.false_eq_true, if_false]
    simp only [seriesOfDict, Option.map_some]
    have hsnd : ((idx.map keyToRName).zip data).map Prod.snd = data := by
      apply List.map_snd_zip
      simp [hlen]
    have hfst : ((idx.map keyToRName).map PyKey.s) = idx := by
      rw [List.map_map]
      have : ∀ k ∈ idx, (PyKey.s ∘ keyToRName) k = k := by
        intro k hk
        have := List.all_eq_true.mp hkeys k hk
        cases k with
        | s t => rfl
        | n m => simp [PyKey.isStr] at this
      rw [List.map_congr_left this]
      simp
    simp [hsnd, hfst]
  · intro xs hxs
    simp only [setitem]
    rw [hget]
    have hne : (xs.length == 1) = false := by simp [hxs]
    simp [py2rpy, getitemVal, hne]
  · intro shape data h3 hp
    simp only [setitem]
    rw [hget]
    have hne : (shape.prod == 1) = false := by simp [hp]
    simp [py2rpy, getitemVal, hne, h3]

/-- Counterexample to C3 as stated: a one-dimensional named sequence
with a single element is a recognized shape, yet its round trip yields
the unwrapped scalar, not the original labeled sequence. -/
theorem rspace_roundtrip_cex :
    getitem (setitem [] "x" (HostVal.series [PyKey.s "a"] [Scalar.num 5])) "x"
        = some (HostVal.scalar (Scalar.num 5))
    ∧ getitem (setitem [] "x" (HostVal.series [PyKey.s "a"] [Scalar.num 5])) "x"
        ≠ some (HostVal.series [PyKey.s "a"] [Scalar.num 5]) := by
  constructor
  · rfl
  · intro h
    simp [setitem, getitem, List.lookup, py2rpy, scalarIsStr, getitemVal,
      pyGetFirst] at h

/-- Witness for C3: a two-element named numeric sequence round trips
to itself with its labels. -/
theorem rspace_roundtrip_witness :
    getitem (setitem [] "v"
        (HostVal.series [PyKey.s "a", PyKey.s "b"] [Scalar.num 1, Scalar.num 2])) "v"
      = some (HostVal.series [PyKey.s "a", PyKey.s "b"] [Scalar.num 1, Scalar.num 2]) :=
  (rspace_roundtrip [] "v").2.2.1 [PyKey.s "a", PyKey.s "b"] [Scalar.num 1, Scalar.num 2]
    (by decide) (by decide) (by decide) (by decide)

end MyUtilities
